import Mathlib

/-!
Verification of the ride-dispatch socket backend (src/socket.js).

The file shallowly embeds the in-memory dispatch core of the backend:
the sequential ride-identifier generator (`generateSequentialRaidId`),
the presence registry (`activeDriverSockets`), the in-memory ride
working set (`rides`), the durable collections (`Ride`, `Driver`,
`DriverLocation`, `RaidId`) and the socket handlers `registerDriver`,
`driverLocationUpdate`, `bookRide`, `acceptRide`, `rejectRide` and
`completeRide`, together with the events they emit and the timers they
schedule.

Modelling conventions:
* JavaScript numbers that the handlers merely store and forward are
  modelled as `Int`; timestamps (`Date.now()`) and Mongo object ids as
  `Nat`.  Wall-clock and random values are passed to each handler as
  explicit parameters.
* `Number.prototype.toString()` on a natural number is modelled by
  `decimalStr`, a fuel-bounded decimal printer (fuel 32 covers every
  value a JavaScript double can hold exactly).
* Fallible durable-store accesses are modelled on their success path;
  the failure path of the identifier generator is `fallbackRaidId`.
* A JavaScript field that may be `undefined` is an `Option`; the `||`
  defaulting idiom on strings is `jsOr`/`jsOrOpt`.
-/

namespace RideBackend

/-- Decimal digit character, as produced by `Nat.digitChar` for values
below 10 (the only values the printer feeds it). -/
def decDigit (c : Char) : Nat := c.toNat - 48

/-- Whether a character is a decimal digit. -/
def isDigitCh (c : Char) : Bool := decide (48 ≤ c.toNat) && decide (c.toNat ≤ 57)

/-- Big-endian decimal value of a character list. -/
def decVal (l : List Char) : Nat := l.foldl (fun a c => a * 10 + decDigit c) 0

/-- Core of the decimal printer: repeatedly divide by 10, prepending the
digit characters.  Fuel-bounded so that the kernel can evaluate it. -/
def decStrCore : Nat → Nat → List Char → List Char
  | 0, _, acc => acc
  | fuel + 1, n, acc =>
    let acc2 := Nat.digitChar (n % 10) :: acc
    if n / 10 = 0 then acc2 else decStrCore fuel (n / 10) acc2

/-- Model of JavaScript `Number.prototype.toString()` on a natural
number (decimal, no leading zeros, `0` printed as `"0"`). -/
def decimalStr (n : Nat) : String := String.mk (decStrCore 32 n [])

/-- JS `String.prototype.padStart(w, 0)` at the character-list level. -/
def padZerosL (w : Nat) (l : List Char) : List Char :=
  List.replicate (w - l.length) '0' ++ l

/-- JS `String.prototype.padStart(w, 0)`. -/
def padZeros (w : Nat) (s : String) : String := String.mk (padZerosL w s.data)

/-- Format a sequence number as a ride identifier:
`RID` followed by the sequence number padded to 6 digits
(src/socket.js:97-98). -/
def formatRaidId (n : Nat) : String := "RID" ++ padZeros 6 (decimalStr n)

/-- `generateSequentialRaidId` (src/socket.js:73-101), success path.
The argument is the durable counter `RaidId.sequence`; the result is
the generated identifier together with the new durable counter value.
The counter is atomically incremented; if the incremented value exceeds
999999 the counter is reset to 100000 and that value is formatted. -/
def generateSequentialRaidId (seq : Nat) : String × Nat :=
  let sequenceNumber := seq + 1
  if sequenceNumber > 999999 then (formatRaidId 100000, 100000)
  else (formatRaidId sequenceNumber, sequenceNumber)

/-- Fallback path of `generateSequentialRaidId` (src/socket.js:102-111),
taken on durable-storage failure: `RID` + the last 6 characters of the
decimal current timestamp `t` + `Math.floor(Math.random()*1000)`
zero-padded to 3 digits. -/
def fallbackRaidId (t r : Nat) : String :=
  let timestamp := (decimalStr t).drop ((decimalStr t).length - 6)
  let random := padZeros 3 (decimalStr r)
  "RID" ++ timestamp ++ random

/-- The identifier format asserted by the spec, parametrised by the
number of digits: `RID` followed by exactly `k` decimal digits. -/
def isRidFormat (k : Nat) (s : String) : Bool :=
  match s.data with
  | c1 :: c2 :: c3 :: rest =>
      c1 == 'R' && c2 == 'I' && c3 == 'D' && rest.length == k && rest.all isDigitCh
  | _ => false

/-- Iterating the generator: `n` successive calls starting from durable
counter `seq`, returning the identifiers in order and the final
counter. -/
def genCalls : Nat → Nat → List String × Nat
  | 0, seq => ([], seq)
  | n + 1, seq =>
    let step := generateSequentialRaidId seq
    let rest := genCalls n step.2
    (step.1 :: rest.1, rest.2)

theorem data_append (a b : String) : (a ++ b).data = a.data ++ b.data := by
  cases a; cases b; rfl

theorem digitChar_isDigit : ∀ m : Nat, m < 10 → isDigitCh (Nat.digitChar m) = true := by
  decide

theorem digitChar_decDigit : ∀ m : Nat, m < 10 → decDigit (Nat.digitChar m) = m := by
  decide

theorem decVal_append_digit (l : List Char) (c : Char) :
    decVal (l ++ [c]) = decVal l * 10 + decDigit c := by
  simp [decVal, List.foldl_append]

/-- Specification of the decimal printer core: with sufficient fuel it
prepends a nonempty digit string whose decimal value is `n`, with no
leading zeros (expressed by the power bounds). -/
theorem decStrCore_spec :
    ∀ (fuel n : Nat) (acc : List Char), n < 10 ^ fuel → 0 < fuel →
      ∃ ds : List Char,
        decStrCore fuel n acc = ds ++ acc ∧
        decVal ds = n ∧ ds ≠ [] ∧ (∀ c ∈ ds, isDigitCh c = true) ∧
        n < 10 ^ ds.length ∧ (1 ≤ n → 10 ^ (ds.length - 1) ≤ n) := by
  intro fuel
  induction fuel with
  | zero =>
    intro n acc _ hf
    omega
  | succ f ih =>
    intro n acc h _
    by_cases hz : n / 10 = 0
    · have hn10 : n < 10 := by omega
      refine ⟨[Nat.digitChar (n % 10)], ?_, ?_, by simp, ?_, ?_, ?_⟩
      · simp [decStrCore, hz]
      · have h1 : decVal [Nat.digitChar (n % 10)] = n % 10 := by
          simp [decVal, digitChar_decDigit (n % 10) (Nat.mod_lt n (by omega))]
        rw [h1, Nat.mod_eq_of_lt hn10]
      · intro c hc
        have : c = Nat.digitChar (n % 10) := by simpa using hc
        subst this
        exact digitChar_isDigit _ (Nat.mod_lt n (by omega))
      · simpa using hn10
      · intro h1
        simpa using h1
    · have hn10 : 10 ≤ n := by omega
      have hfpos : 0 < f := by
        rcases Nat.eq_zero_or_pos f with hf0 | hf0
        · subst hf0
          norm_num at h
          omega
        · exact hf0
      have h2 : n < 10 * 10 ^ f := by
        rw [pow_succ] at h
        omega
      have hdivlt : n / 10 < 10 ^ f := Nat.div_lt_of_lt_mul h2
      obtain ⟨ds, hds, hval, hne, hdig, hub, hlb⟩ :=
        ih (n / 10) (Nat.digitChar (n % 10) :: acc) hdivlt hfpos
      refine ⟨ds ++ [Nat.digitChar (n % 10)], ?_, ?_, by simp, ?_, ?_, ?_⟩
      · simp [decStrCore, hz, hds]
      · rw [decVal_append_digit, hval,
          digitChar_decDigit (n % 10) (Nat.mod_lt n (by omega))]
        omega
      · intro c hc
        rcases List.mem_append.mp hc with hc | hc
        · exact hdig c hc
        · have : c = Nat.digitChar (n % 10) := by simpa using hc
          subst this
          exact digitChar_isDigit _ (Nat.mod_lt n (by omega))
      · have hsplit : n = n / 10 * 10 + n % 10 := by omega
        have hmlt : n % 10 < 10 := Nat.mod_lt n (by omega)
        have hmul : n / 10 * 10 + 10 ≤ 10 ^ ds.length * 10 := by
          have hle : n / 10 + 1 ≤ 10 ^ ds.length := hub
          nlinarith
        have hlt : n < 10 ^ ds.length * 10 := by omega
        calc n < 10 ^ ds.length * 10 := hlt
        _ = 10 ^ (ds ++ [Nat.digitChar (n % 10)]).length := by
          simp [List.length_append, pow_succ]
      · intro _
        have h10 : 1 ≤ n / 10 := by omega
        have hlow := hlb h10
        have hlen1 : 1 ≤ ds.length := by
          cases ds with
          | nil => exact absurd rfl hne
          | cons a l => simp
        have hstep : 10 ^ (ds.length - 1) * 10 ≤ n / 10 * 10 :=
          Nat.mul_le_mul_right 10 hlow
        have heq : 10 ^ (ds.length - 1) * 10 = 10 ^ ds.length := by
          have hsucc : ds.length - 1 + 1 = ds.length := by omega
          calc 10 ^ (ds.length - 1) * 10 = 10 ^ (ds.length - 1 + 1) := by
                rw [pow_succ]
          _ = 10 ^ ds.length := by rw [hsucc]
        have hnd : n / 10 * 10 ≤ n := Nat.div_mul_le_self n 10
        have hfin : 10 ^ ds.length ≤ n := by
          rw [← heq]
          omega
        simpa [List.length_append] using hfin

theorem decVal_zeros (k : Nat) (l : List Char) :
    decVal (List.replicate k '0' ++ l) = decVal l := by
  induction k with
  | zero => simp
  | succ m ih =>
    have h0 : (0 : Nat) * 10 + decDigit '0' = 0 := rfl
    simpa [decVal, List.replicate_succ, h0] using ih

theorem decVal_padZerosL (w : Nat) (l : List Char) :
    decVal (padZerosL w l) = decVal l := decVal_zeros _ _

theorem decimalStr_data (n : Nat) (h : n < 10 ^ 32) :
    ∃ ds : List Char, (decimalStr n).data = ds ∧ decVal ds = n ∧
      (∀ c ∈ ds, isDigitCh c = true) ∧ (1 ≤ n → 10 ^ (ds.length - 1) ≤ n) := by
  obtain ⟨ds, hds, hval, _, hdig, _, hlb⟩ := decStrCore_spec 32 n [] h (by omega)
  exact ⟨ds, by simp [decimalStr, hds], hval, hdig, hlb⟩

theorem decVal_decimalStr (n : Nat) (h : n < 10 ^ 32) :
    decVal (decimalStr n).data = n := by
  obtain ⟨ds, hds, hval, _, _⟩ := decimalStr_data n h
  rw [hds, hval]

theorem padZeros_data (w : Nat) (s : String) :
    (padZeros w s).data = padZerosL w s.data := rfl

theorem formatRaidId_data (n : Nat) :
    (formatRaidId n).data = 'R' :: 'I' :: 'D' :: padZerosL 6 (decimalStr n).data := by
  show (("RID" : String) ++ padZeros 6 (decimalStr n)).data = _
  rw [data_append, padZeros_data]
  rfl

theorem formatRaidId_inj {m n : Nat} (hm : m < 10 ^ 32) (hn : n < 10 ^ 32)
    (h : formatRaidId m = formatRaidId n) : m = n := by
  have hd := congrArg String.data h
  rw [formatRaidId_data, formatRaidId_data] at hd
  have h2 : padZerosL 6 (decimalStr m).data = padZerosL 6 (decimalStr n).data := by
    simpa using hd
  have h3 := congrArg decVal h2
  rw [decVal_padZerosL, decVal_padZerosL, decVal_decimalStr m hm,
    decVal_decimalStr n hn] at h3
  exact h3

theorem decimalStr_length_le (n : Nat) (h : n ≤ 999999) :
    (decimalStr n).data.length ≤ 6 := by
  rcases Nat.eq_zero_or_pos n with h0 | h0
  · subst h0
    decide
  · obtain ⟨ds, hds, _, _, hlb⟩ := decimalStr_data n (by omega)
    have hlow := hlb h0
    rw [hds]
    by_contra hgt
    push_neg at hgt
    have hmono : (10 : Nat) ^ 6 ≤ 10 ^ (ds.length - 1) :=
      Nat.pow_le_pow_right (by omega) (by omega)
    have h6 : (10 : Nat) ^ 6 = 1000000 := by norm_num
    omega

/-- Normal-path identifiers are always `RID` followed by exactly six
decimal digits. -/
theorem formatRaidId_isRid6 (n : Nat) (h : n ≤ 999999) :
    isRidFormat 6 (formatRaidId n) = true := by
  obtain ⟨ds, hds, _, hdig, _⟩ := decimalStr_data n (by omega)
  have hlen : ds.length ≤ 6 := by
    have := decimalStr_length_le n h
    rwa [hds] at this
  have hred : isRidFormat 6 (formatRaidId n) =
      ((('R' == 'R') && ('I' == 'I') && ('D' == 'D') &&
        (padZerosL 6 ds).length == 6) && (padZerosL 6 ds).all isDigitCh) := by
    unfold isRidFormat
    rw [formatRaidId_data, hds]
  rw [hred]
  have hl : (padZerosL 6 ds).length = 6 := by
    simp [padZerosL]
    omega
  have ha : (padZerosL 6 ds).all isDigitCh = true := by
    rw [List.all_eq_true]
    intro c hc
    rcases List.mem_append.mp hc with hc | hc
    · have : c = '0' := List.eq_of_mem_replicate hc
      subst this
      decide
    · exact hdig c hc
  simp [hl, ha]

/-- A run of generator calls that stays inside one wraparound epoch
produces exactly the formatted successive counter values. -/
theorem genCalls_ids (n : Nat) : ∀ c : Nat, c + n ≤ 999999 →
    genCalls n c = ((List.range n).map (fun i => formatRaidId (c + i + 1)), c + n) := by
  induction n with
  | zero =>
    intro c h
    simp [genCalls]
  | succ m ih =>
    intro c h
    have hc : ¬ (c + 1 > 999999) := by omega
    have hstep : generateSequentialRaidId c = (formatRaidId (c + 1), c + 1) := by
      simp [generateSequentialRaidId, hc]
    have hrest := ih (c + 1) (by omega)
    simp only [genCalls, hstep, hrest, List.range_succ_eq_map, List.map_map,
      List.map_cons]
    refine Prod.ext ?_ (by simp; omega)
    show _ :: _ = _ :: _
    simp only [Nat.add_zero]
    congr 1
    apply List.map_congr_left
    intro i _
    simp only [Function.comp]
    congr 1
    omega

/-- C3: for every call of the identifier generator where the durable
counter's post-increment value exceeds 999999, the generator resets the
durable counter to 100000 and returns the identifier RID100000. -/
theorem raidId_wraparound_resets (seq : Nat) (h : seq + 1 > 999999) :
    generateSequentialRaidId seq = ("RID100000", 100000) := by
  have hfmt : formatRaidId 100000 = "RID100000" := by decide
  simp [generateSequentialRaidId, h, hfmt]

theorem raidId_wraparound_resets_witness :
    999999 + 1 > 999999 ∧ generateSequentialRaidId 999999 = ("RID100000", 100000) :=
  ⟨by decide, raidId_wraparound_resets 999999 (by decide)⟩

/-- C4 counterexample: on the durable-storage-failure fallback path the
generated identifier is RID followed by nine digits (six truncated
timestamp digits plus a three-digit random suffix), not six, refuting
the claim that every execution path yields RID plus exactly 6 digits.
Input: timestamp 1760000000000 (a 13-digit Date.now() value), random
draw 5. -/
theorem fallbackRaidId_nine_digits :
    fallbackRaidId 1760000000000 5 = "RID000000005" ∧
    isRidFormat 6 (fallbackRaidId 1760000000000 5) = false ∧
    isRidFormat 9 (fallbackRaidId 1760000000000 5) = true := by
  refine ⟨by decide, by decide, by decide⟩

/-- C4 (amended): identifiers produced on the normal durable-counter
path are always RID followed by exactly six decimal digits, and all
identifiers returned within a single wraparound epoch (a run of calls
whose counter values never exceed 999999) are pairwise distinct; the
fallback path instead returns RID followed by nine digits. -/
theorem raidId_epoch_format_and_distinct (c n : Nat) (h : c + n ≤ 999999) :
    (∀ id ∈ (genCalls n c).1, isRidFormat 6 id = true) ∧ (genCalls n c).1.Nodup := by
  have hg := genCalls_ids n c h
  rw [hg]
  constructor
  · intro id hid
    obtain ⟨i, hi, hfi⟩ := List.mem_map.mp hid
    have hin : i < n := List.mem_range.mp hi
    rw [← hfi]
    exact formatRaidId_isRid6 (c + i + 1) (by omega)
  · refine List.Nodup.map_on ?_ (List.nodup_range n)
    intro i hi j hj hf
    have hin : i < n := List.mem_range.mp hi
    have hjn : j < n := List.mem_range.mp hj
    have := formatRaidId_inj (m := c + i + 1) (n := c + j + 1)
      (by norm_num; omega) (by norm_num; omega) hf
    omega

theorem raidId_epoch_format_and_distinct_witness :
    100000 + 3 ≤ 999999 ∧
    ((∀ id ∈ (genCalls 3 100000).1, isRidFormat 6 id = true) ∧
      (genCalls 3 100000).1.Nodup) :=
  ⟨by decide, raidId_epoch_format_and_distinct 100000 3 (by decide)⟩

/-! ## Data model: durable documents, presence registry, in-memory rides -/

/-- JS string defaulting idiom `s || d` (empty string is falsy). -/
def jsOr (s d : String) : String := if s = "" then d else s

/-- JS defaulting idiom `o || d` on a possibly-undefined string. -/
def jsOrOpt (o : Option String) (d : String) : String :=
  match o with
  | none => d
  | some s => jsOr s d

/-- JS falsiness of a possibly-undefined string (`!s`). -/
def jsFalsyStr (o : Option String) : Bool :=
  match o with
  | none => true
  | some s => s == ""

/-- JS falsiness of a possibly-undefined number (`!x`): undefined or 0. -/
def jsFalsyNum (o : Option Int) : Bool :=
  match o with
  | none => true
  | some x => x == 0

/-- A pickup/drop object as sent by the client in `bookRide`:
`{address?, lat, lng}`. -/
structure BookPlace where
  address : Option String
  lat : Int
  lng : Int
deriving Repr, DecidableEq

/-- The `bookRide` request payload (src/socket.js:394). -/
structure BookData where
  userId : Option String
  customerId : Option String
  userName : Option String
  userMobile : Option String
  pickup : Option BookPlace
  drop : Option BookPlace
  vehicleType : Option String
  estimatedPrice : Option Int
  distance : Option String
  travelTime : Option String
  wantReturn : Option Bool
deriving Repr, DecidableEq

/-- A pickup/drop subdocument of a durable ride record:
`{addr, lat, lng}` (src/socket.js:493-502). -/
structure PlaceDoc where
  addr : String
  lat : Int
  lng : Int
deriving Repr, DecidableEq

/-- A durable ride record (the `Ride` Mongo document created by
`bookRide`, src/socket.js:466-505).  `oid` models the Mongo `_id`
(assigned from the store's insertion counter).  The wall-clock string
fields `Raid_date`/`Raid_time` and the float field `distanceKm`
(`parseFloat`) are not modelled; no claim depends on them. -/
structure RideDoc where
  oid : Nat
  user : String
  customerId : String
  name : String
  RAID_ID : String
  pickupLocation : String
  dropoffLocation : String
  pickupCoordinates : Int × Int
  dropoffCoordinates : Int × Int
  fare : Int
  rideType : Option String
  otp : String
  distance : String
  travelTime : String
  isReturnTrip : Bool
  status : String
  pickup : PlaceDoc
  drop : PlaceDoc
  price : Int
  driverId : Option String
  driverName : Option String
  driverMobile : Option String
deriving Repr, DecidableEq

/-- A durable driver record (the `Driver` Mongo document consulted by
`acceptRide`); `coordinates` is the GeoJSON `[lng, lat]` pair. -/
structure DriverDoc where
  driverId : String
  phone : String
  coordinates : Option (Int × Int)
  vehicleType : String
deriving Repr, DecidableEq

/-- A durable `DriverLocation` record written by
`saveDriverLocationToDB` (src/socket.js:115-134). -/
structure LocationDoc where
  driverId : String
  driverName : Option String
  latitude : Int
  longitude : Int
  vehicleType : String
  status : String
  timestamp : Nat
deriving Repr, DecidableEq

/-- A presence-registry entry (a value of `activeDriverSockets`,
src/socket.js:302-311); the `location` object is flattened into
`latitude`/`longitude`. -/
structure DriverInfo where
  socketId : String
  driverId : String
  driverName : Option String
  latitude : Int
  longitude : Int
  vehicleType : String
  lastUpdate : Nat
  status : String
  isOnline : Bool
deriving Repr, DecidableEq

/-- An in-memory working copy of a ride (a value of `rides`,
src/socket.js:527-533): the spread of the booking payload plus the
fields set by the handlers.  `distanceDone` is the numeric `distance`
written by `completeRide` (which shadows the booking payload's string
`distance` field in the JS object). -/
structure MemRide where
  data : BookData
  rideId : String
  status : String
  timestamp : Nat
  oid : Nat
  rejectedAt : Option Nat
  completedAt : Option Nat
  distanceDone : Option Int
deriving Repr, DecidableEq

/-- A connected socket, with the driver identity bound to it by
`registerDriver` (`socket.driverId`, `socket.driverName`). -/
structure SocketConn where
  sid : String
  driverId : Option String
  driverName : Option String
deriving Repr, DecidableEq

/-- The full server state: the three in-memory registries of
src/socket.js:9-11, the durable collections, the durable sequence
counter, the Mongo object-id allocator and the socket registry. -/
structure ServerState where
  rides : List (String × MemRide)
  activeDriverSockets : List (String × DriverInfo)
  processingRides : List String
  dbRides : List RideDoc
  nextOid : Nat
  dbSeq : Nat
  dbDrivers : List DriverDoc
  dbLocations : List LocationDoc
  conns : List SocketConn
deriving Repr, DecidableEq

/-! ### Association-list operations modelling JS `Map` / object maps -/

/-- `Map.prototype.get` / property lookup on an association list. -/
def mapGet {α : Type} : List (String × α) → String → Option α
  | [], _ => none
  | (k1, v) :: rest, k => if k1 = k then some v else mapGet rest k

/-- `Map.prototype.set` / property assignment on an association list. -/
def mapSet {α : Type} : List (String × α) → String → α → List (String × α)
  | [], k, v => [(k, v)]
  | (k1, v1) :: rest, k, v =>
    if k1 = k then (k, v) :: rest else (k1, v1) :: mapSet rest k v

/-- `delete rides[rideId]` / `Map.prototype.delete`. -/
def mapDel {α : Type} (m : List (String × α)) (k : String) : List (String × α) :=
  m.filter (fun p => p.1 != k)

/-- `Set.prototype.has` on a list-modelled set. -/
def listHas : List String → String → Bool
  | [], _ => false
  | y :: rest, x => if y = x then true else listHas rest x

/-- `Set.prototype.add` on a list-modelled set. -/
def setAdd (l : List String) (x : String) : List String :=
  if listHas l x then l else x :: l

/-- `Set.prototype.delete` on a list-modelled set. -/
def setDel (l : List String) (x : String) : List String :=
  l.filter (fun y => y != x)

theorem mapGet_set_self {α : Type} (m : List (String × α)) (k : String) (v : α) :
    mapGet (mapSet m k v) k = some v := by
  induction m with
  | nil => simp [mapGet, mapSet]
  | cons p rest ih =>
    obtain ⟨k1, v1⟩ := p
    by_cases hk : k1 = k
    · simp [mapGet, mapSet, hk]
    · simp [mapGet, mapSet, hk, ih]

theorem mapGet_set_ne {α : Type} (m : List (String × α)) (k k2 : String) (v : α)
    (h : k ≠ k2) : mapGet (mapSet m k v) k2 = mapGet m k2 := by
  induction m with
  | nil => simp [mapGet, mapSet, h]
  | cons p rest ih =>
    obtain ⟨k1, v1⟩ := p
    by_cases hk : k1 = k
    · subst hk
      simp [mapGet, mapSet, h]
    · simp [mapGet, mapSet, hk, ih]

theorem mapGet_del_self {α : Type} (m : List (String × α)) (k : String) :
    mapGet (mapDel m k) k = none := by
  induction m with
  | nil => simp [mapGet, mapDel]
  | cons p rest ih =>
    obtain ⟨k1, v1⟩ := p
    by_cases hk : k1 = k
    · subst hk
      simpa [mapDel, List.filter_cons] using ih
    · simpa [mapDel, List.filter_cons, bne_iff_ne, hk, mapGet] using ih

theorem listHas_setDel (l : List String) (x : String) :
    listHas (setDel l x) x = false := by
  induction l with
  | nil => simp [listHas, setDel]
  | cons y rest ih =>
    by_cases hy : y = x
    · subst hy
      simpa [setDel, List.filter_cons] using ih
    · simpa [setDel, List.filter_cons, bne_iff_ne, hy, listHas] using ih

/-! ## Events, replies, timers -/

/-- A public projection of an online driver, as broadcast by
`broadcastDriverLocationsToAllUsers` and `requestNearbyDrivers`;
`coordinates` is the `[lng, lat]` pair. -/
structure DriverSnapshot where
  driverId : String
  name : Option String
  coordinates : Int × Int
  vehicleType : String
  status : String
  lastUpdate : Nat
deriving Repr, DecidableEq

/-- The acceptance payload prepared for the rider and the accepting
driver (src/socket.js:702-716).  `timestamp` models the
`new Date().toISOString()` stamp. -/
structure DriverData where
  success : Bool
  rideId : String
  driverId : String
  driverName : String
  driverMobile : String
  driverLat : Int
  driverLng : Int
  otp : String
  pickup : PlaceDoc
  drop : PlaceDoc
  status : String
  vehicleType : String
  timestamp : Nat
deriving Repr, DecidableEq

/-- The rider data sent to the accepting driver
(src/socket.js:757-769). -/
structure UserData where
  success : Bool
  rideId : String
  userId : String
  customerId : String
  userName : String
  userMobile : String
  pickup : PlaceDoc
  drop : PlaceDoc
  otp : String
  status : String
  timestamp : Nat
deriving Repr, DecidableEq

/-- Delivery target of an emitted event: `io.emit` (all), `io.to(room)`,
the per-socket enumeration of a room via `fetchSockets`, a single
socket, or `socket.broadcast` (everyone but the sender). -/
inductive Target where
  | all : Target
  | room (name : String) : Target
  | roomSockets (name : String) : Target
  | conn (sid : String) : Target
  | others (senderSid : String) : Target
deriving Repr, DecidableEq

/-- An event message with its payload. -/
inductive EventMsg where
  | driverLiveLocationUpdate (driverId : String) (lat lng : Int)
      (status vehicleType : String) (timestamp : Nat) : EventMsg
  | driverLocationsUpdate (drivers : List DriverSnapshot) : EventMsg
  | driverRegistrationConfirmed (success : Bool) (message : String) : EventMsg
  | newRideRequest (data : BookData) (rideId : String) (oid : Nat) : EventMsg
  | rideAlreadyAccepted (rideId message : String) : EventMsg
  | rideAccepted (payload : DriverData) : EventMsg
  | rideAcceptedGlobal (payload : DriverData) (targetUserId : String) : EventMsg
  | userDataForDriver (payload : UserData) : EventMsg
  | driverStatusUpdate (driverId status : String) : EventMsg
  | rideCompleted (rideId : String) (distance : Int) : EventMsg
deriving Repr, DecidableEq

/-- An emission: a target and a message. -/
structure Emit where
  target : Target
  msg : EventMsg
deriving Repr, DecidableEq

/-- A task scheduled with `setTimeout`: eviction of a completed ride's
working copy, or the backup re-delivery of a `rideAccepted` event. -/
inductive TimerTask where
  | deleteRide (rideId : String) : TimerTask
  | backupRideAccepted (room : String) (payload : DriverData) : TimerTask
deriving Repr, DecidableEq

/-- The result a handler returns: the new server state, the events
emitted (in order), the acknowledgment-callback value and the timers
scheduled (delay in milliseconds). -/
structure Out (ρ : Type) where
  state : ServerState
  events : List Emit
  reply : ρ
  timers : List (Nat × TimerTask)
deriving Repr, DecidableEq

/-- The `bookRide` acknowledgment callback payload. -/
structure BookReply where
  success : Bool
  rideId : Option String
  oid : Option Nat
  otp : Option String
  message : String
deriving Repr, DecidableEq

/-- The `acceptRide` acknowledgment callback payload: a failure message
or the full acceptance payload. -/
inductive AcceptReply where
  | failure (message : String) : AcceptReply
  | accepted (payload : DriverData) : AcceptReply
deriving Repr, DecidableEq

/-- Running a scheduled timer task against a state: ride eviction
deletes the working copy; the backup delivery re-emits `rideAccepted`
to the rider's room. -/
def applyTimer (s : ServerState) (t : TimerTask) : ServerState × List Emit :=
  match t with
  | .deleteRide rid => ({ s with rides := mapDel s.rides rid }, [])
  | .backupRideAccepted room payload => (s, [⟨.room room, .rideAccepted payload⟩])

/-! ## Handlers -/

/-- Update (or record) the driver identity bound to a socket
(`socket.driverId = driverId; socket.driverName = driverName`). -/
def connSetDriver : List SocketConn → String → String → Option String → List SocketConn
  | [], sid, did, dn => [⟨sid, some did, dn⟩]
  | c :: rest, sid, did, dn =>
    if c.sid = sid then { c with driverId := some did, driverName := dn } :: rest
    else c :: connSetDriver rest sid did dn

/-- `broadcastDriverLocationsToAllUsers` projection (src/socket.js:137-149):
online registry entries mapped to public snapshots. -/
def onlineDriverSnapshots (registry : List (String × DriverInfo)) : List DriverSnapshot :=
  ((registry.map Prod.snd).filter (fun d => d.isOnline)).map
    (fun d => ⟨d.driverId, d.driverName, (d.longitude, d.latitude),
      d.vehicleType, d.status, d.lastUpdate⟩)

/-- The `registerDriver` handler (src/socket.js:279-346).  A missing or
empty `driverId`, or a falsy (missing or zero) latitude or longitude,
makes the handler return early with no state change and no emission.
Otherwise the driver identity is bound to the socket, the presence
entry is inserted or replaced, the initial location is written to the
durable `DriverLocation` collection, the online-driver list is
broadcast, and a success confirmation is emitted to the caller. -/
def registerDriver (s : ServerState) (senderSid : String)
    (driverId driverName : Option String) (latitude longitude : Option Int)
    (vehicleType : Option String) (now : Nat) : Out Unit :=
  let vt := vehicleType.getD "taxi"
  if jsFalsyStr driverId then ⟨s, [], (), []⟩
  else if jsFalsyNum latitude || jsFalsyNum longitude then ⟨s, [], (), []⟩
  else
    let did := driverId.getD ""
    let lat := latitude.getD 0
    let lng := longitude.getD 0
    let info : DriverInfo :=
      ⟨senderSid, did, driverName, lat, lng, vt, now, "Live", true⟩
    let registry := mapSet s.activeDriverSockets did info
    let locDoc : LocationDoc := ⟨did, driverName, lat, lng, vt, "Live", now⟩
    { state := { s with
        conns := connSetDriver s.conns senderSid did driverName
        activeDriverSockets := registry
        dbLocations := locDoc :: s.dbLocations }
      events := [⟨.all, .driverLocationsUpdate (onlineDriverSnapshots registry)⟩,
        ⟨.conn senderSid, .driverRegistrationConfirmed true "Driver registered successfully"⟩]
      reply := ()
      timers := [] }

/-- The `driverLocationUpdate` handler (src/socket.js:179-224).  If the
driver is known to the presence registry its entry is updated in place
(location, timestamp, status, online flag); in every case the location
is broadcast to all connected clients as `driverLiveLocationUpdate` and
appended to the durable `DriverLocation` collection (with driver name
`Unknown` when the driver is not registered). -/
def driverLocationUpdate (s : ServerState) (driverId : String)
    (latitude longitude : Int) (status : Option String) (now : Nat) : Out Unit :=
  let registry :=
    match mapGet s.activeDriverSockets driverId with
    | some d =>
      mapSet s.activeDriverSockets driverId
        { d with
          latitude := latitude
          longitude := longitude
          lastUpdate := now
          status := jsOrOpt status "Live"
          isOnline := true }
    | none => s.activeDriverSockets
  let nm := jsOrOpt ((mapGet registry driverId).bind (fun d => d.driverName)) "Unknown"
  let locDoc : LocationDoc :=
    ⟨driverId, some nm, latitude, longitude, "taxi", jsOrOpt status "Live", now⟩
  { state := { s with
      activeDriverSockets := registry
      dbLocations := locDoc :: s.dbLocations }
    events := [⟨.all, .driverLiveLocationUpdate driverId latitude longitude
      (jsOrOpt status "Live") "taxi" now⟩]
    reply := ()
    timers := [] }

/-- A random 4-digit OTP: `Math.floor(1000 + Math.random() * 9000)`
with the random draw `r` passed in (src/socket.js:416,690). -/
def randOtp4 (r : Nat) : String := decimalStr (1000 + r % 9000)

/-- OTP computation of `bookRide` (src/socket.js:412-417): the last 4
characters of the customer id when it is present with length at least
4, otherwise a random 4-digit code. -/
def bookOtp (customerId : Option String) (r : Nat) : String :=
  match customerId with
  | some cid =>
    if cid ≠ "" ∧ 4 ≤ cid.length then cid.drop (cid.length - 4) else randOtp4 r
  | none => randOtp4 r

/-- Required-field validation of `bookRide` (src/socket.js:436):
`!userId || !customerId || !userName || !pickup || !drop`. -/
def bookValid (d : BookData) : Bool :=
  !(jsFalsyStr d.userId) && !(jsFalsyStr d.customerId) && !(jsFalsyStr d.userName) &&
    d.pickup.isSome && d.drop.isSome

/-- Message used in both already-accepted notifications of
`acceptRide`. -/
def alreadyAcceptedMsg : String :=
  "This ride has already been accepted by another driver."

/-- The body of the `bookRide` handler after the identifier has been
generated (src/socket.js:420-612): the ProcessingGuard check, the
required-field validation, the idempotent existing-record check, the
durable insert, the in-memory working copy, the broadcast to drivers
and the acknowledgment.  The `finally` clause removes the generated id
from `processingRides` on every exit path.  The Mongoose document-level
`validate()` step is modelled as always passing (the schema lives
outside this repository); the duplicate-key catch branch is unreachable
in this sequential model because the existing-record check precedes the
insert. -/
def bookRideWithId (s : ServerState) (rideId : String) (otp : String)
    (d : BookData) (now : Nat) : Out BookReply :=
  if listHas s.processingRides rideId then
    { state := { s with processingRides := setDel s.processingRides rideId }
      events := []
      reply := ⟨false, none, none, none, "Ride is already being processed"⟩
      timers := [] }
  else if !(bookValid d) then
    { state := { s with processingRides := setDel (setAdd s.processingRides rideId) rideId }
      events := []
      reply := ⟨false, none, none, none, "Missing required fields"⟩
      timers := [] }
  else
    match s.dbRides.find? (fun x => x.RAID_ID == rideId) with
    | some existingRide =>
      { state := { s with processingRides := setDel (setAdd s.processingRides rideId) rideId }
        events := []
        reply := ⟨true, some rideId, some existingRide.oid, some existingRide.otp,
          "Ride already exists"⟩
        timers := [] }
    | none =>
      let p := d.pickup.getD ⟨none, 0, 0⟩
      let q := d.drop.getD ⟨none, 0, 0⟩
      let doc : RideDoc :=
        { oid := s.nextOid
          user := d.userId.getD ""
          customerId := d.customerId.getD ""
          name := d.userName.getD ""
          RAID_ID := rideId
          pickupLocation := jsOrOpt p.address "Selected Location"
          dropoffLocation := jsOrOpt q.address "Selected Location"
          pickupCoordinates := (p.lat, p.lng)
          dropoffCoordinates := (q.lat, q.lng)
          fare := d.estimatedPrice.getD 0
          rideType := d.vehicleType
          otp := otp
          distance := jsOrOpt d.distance "0 km"
          travelTime := jsOrOpt d.travelTime "0 mins"
          isReturnTrip := d.wantReturn.getD false
          status := "pending"
          pickup := ⟨jsOrOpt p.address "Selected Location", p.lat, p.lng⟩
          drop := ⟨jsOrOpt q.address "Selected Location", q.lat, q.lng⟩
          price := d.estimatedPrice.getD 0
          driverId := none
          driverName := none
          driverMobile := none }
      let mem : MemRide := ⟨d, rideId, "pending", now, s.nextOid, none, none, none⟩
      { state := { s with
          processingRides := setDel (setAdd s.processingRides rideId) rideId
          dbRides := doc :: s.dbRides
          nextOid := s.nextOid + 1
          rides := mapSet s.rides rideId mem }
        events := [⟨.all, .newRideRequest d rideId s.nextOid⟩]
        reply := ⟨true, some rideId, some s.nextOid, some otp, "Ride booked successfully!"⟩
        timers := [] }

/-- The `bookRide` handler (src/socket.js:391-613): generate a
sequential identifier from the durable counter, compute the OTP, then
run the booking body. -/
def bookRide (s : ServerState) (d : BookData) (now r : Nat) : Out BookReply :=
  let gen := generateSequentialRaidId s.dbSeq
  bookRideWithId { s with dbSeq := gen.2 } gen.1 (bookOtp d.customerId r) d now

/-- The identifier the next `bookRide` invocation will generate. -/
def nextRaidId (s : ServerState) : String := (generateSequentialRaidId s.dbSeq).1

/-- Replace the first durable ride record bearing the given `RAID_ID`
(the effect of `ride.save()` on the document found by `findOne`). -/
def setRide : List RideDoc → String → RideDoc → List RideDoc
  | [], _, _ => []
  | r :: rest, rid, r2 =>
    if r.RAID_ID = rid then r2 :: rest else r :: setRide rest rid r2

/-- The driver contact lookup of `acceptRide`
(src/socket.js:677-686): phone number, defaulting to `N/A` when the
driver is not in the durable `Driver` collection. -/
def acceptMobile (driver : Option DriverDoc) : String :=
  match driver with
  | some dr => dr.phone
  | none => "N/A"

/-- The OTP guarantee of `acceptRide` (src/socket.js:689-695): keep the
booking OTP, generating a fresh 4-digit one only when it is missing. -/
def acceptOtp (ride : RideDoc) (r : Nat) : String :=
  if ride.otp = "" then randOtp4 r else ride.otp

/-- The accepted version of a durable ride record
(src/socket.js:672-698): status transition plus driver binding. -/
def acceptedRideDoc (ride : RideDoc) (driverId driverName : String)
    (r : Nat) (driver : Option DriverDoc) : RideDoc :=
  { ride with
    status := "accepted"
    driverId := some driverId
    driverName := some driverName
    driverMobile := some (acceptMobile driver)
    otp := acceptOtp ride r }

/-- The acceptance payload (src/socket.js:702-716) built from the
accepted record and the driver lookup result. -/
def mkDriverData (ride2 : RideDoc) (driverId driverName : String)
    (driver : Option DriverDoc) (now : Nat) : DriverData :=
  { success := true
    rideId := ride2.RAID_ID
    driverId := driverId
    driverName := driverName
    driverMobile := acceptMobile driver
    driverLat := match driver with
      | some dr => (match dr.coordinates with | some c => c.2 | none => 0)
      | none => 0
    driverLng := match driver with
      | some dr => (match dr.coordinates with | some c => c.1 | none => 0)
      | none => 0
    otp := ride2.otp
    pickup := ride2.pickup
    drop := ride2.drop
    status := ride2.status
    vehicleType := match driver with
      | some dr => jsOr dr.vehicleType "taxi"
      | none => "taxi"
    timestamp := now }

/-- The rider payload for the accepting driver (src/socket.js:757-769).
The durable ride record has no `userMobile` field, so the source's
`ride.userMobile || "N/A"` always yields `"N/A"`. -/
def mkUserData (ride2 : RideDoc) (now : Nat) : UserData :=
  ⟨true, ride2.RAID_ID, ride2.user, ride2.customerId, ride2.name,
    "N/A", ride2.pickup, ride2.drop, ride2.otp, ride2.status, now⟩

/-- Delivery of `userDataForDriver` (src/socket.js:772-780): directly
to the socket bound to the driver when one exists, otherwise to the
driver's room. -/
def userDataEmitOf (conns : List SocketConn) (driverId : String)
    (userData : UserData) : Emit :=
  match conns.find? (fun c => c.driverId == some driverId) with
  | some c => ⟨.conn c.sid, .userDataForDriver userData⟩
  | none => ⟨.room ("driver_" ++ driverId), .userDataForDriver userData⟩

/-- The presence-status flip of `acceptRide` (src/socket.js:790-796):
the accepting driver goes `onRide` when registered. -/
def acceptRegistry (registry : List (String × DriverInfo)) (driverId : String) :
    List (String × DriverInfo) :=
  match mapGet registry driverId with
  | some info =>
    mapSet registry driverId { info with status := "onRide", isOnline := true }
  | none => registry

/-- The `acceptRide` handler (src/socket.js:629-811).  Re-reads the
authoritative record from the durable store; fails `Ride not found`
when absent; when the record is already `accepted`, broadcasts an
already-accepted notice to the other drivers and fails without touching
the record; otherwise transitions the record to `accepted`, binds the
driver, looks up the driver's contact details (defaulting to `N/A`),
ensures an OTP exists, saves, then delivers the acceptance payload over
the layered channels (rider room, per-socket room enumeration, global
`rideAcceptedGlobal` emission, 1s delayed backup), sends the rider's
data to the accepting driver, notifies the other drivers, and flips the
driver's presence status to `onRide`. -/
def acceptRide (s : ServerState) (senderSid : String)
    (rideId driverId driverName : String) (now r : Nat) : Out AcceptReply :=
  match s.dbRides.find? (fun x => x.RAID_ID == rideId) with
  | none => ⟨s, [], .failure "Ride not found", []⟩
  | some ride =>
    if ride.status = "accepted" then
      ⟨s, [⟨.others senderSid, .rideAlreadyAccepted rideId alreadyAcceptedMsg⟩],
        .failure alreadyAcceptedMsg, []⟩
    else
      let driver := s.dbDrivers.find? (fun x => x.driverId == driverId)
      let ride2 := acceptedRideDoc ride driverId driverName r driver
      let driverData := mkDriverData ride2 driverId driverName driver now
      let userRoom := ride2.user
      { state := { s with
          dbRides := setRide s.dbRides rideId ride2
          activeDriverSockets := acceptRegistry s.activeDriverSockets driverId }
        events := [⟨.room userRoom, .rideAccepted driverData⟩,
          ⟨.roomSockets userRoom, .rideAccepted driverData⟩,
          ⟨.all, .rideAcceptedGlobal driverData userRoom⟩,
          userDataEmitOf s.conns driverId (mkUserData ride2 now),
          ⟨.others senderSid, .rideAlreadyAccepted rideId alreadyAcceptedMsg⟩]
        reply := .accepted driverData
        timers := [(1000, .backupRideAccepted userRoom driverData)] }

/-- The `rejectRide` handler (src/socket.js:853-882): if the ride has
an in-memory working copy, mark it `rejected` and, if the rejecting
driver is registered, restore that driver's presence status to `Live`
and notify the rejecting socket; the durable store is never touched. -/
def rejectRide (s : ServerState) (senderSid : String)
    (rideId driverId : String) (now : Nat) : Out Unit :=
  match mapGet s.rides rideId with
  | none => ⟨s, [], (), []⟩
  | some mem =>
    let rides2 := mapSet s.rides rideId
      { mem with status := "rejected", rejectedAt := some now }
    match mapGet s.activeDriverSockets driverId with
    | some info =>
      ⟨{ s with
          rides := rides2
          activeDriverSockets := mapSet s.activeDriverSockets driverId
            { info with status := "Live", isOnline := true } },
        [⟨.conn senderSid, .driverStatusUpdate driverId "Live"⟩], (), []⟩
    | none => ⟨{ s with rides := rides2 }, [], (), []⟩

/-- Room-name coercion for `io.to(userId)` where the id may be
undefined (JavaScript would coerce `undefined`). -/
def jsRoom (o : Option String) : String := o.getD "undefined"

/-- The `completeRide` handler (src/socket.js:885-929): if the ride has
an in-memory working copy, mark it `completed`, record the distance,
notify the ride's original rider's room with `rideCompleted`, restore
the driver's presence status to `Live` (when registered) notifying the
completing socket, and schedule removal of the working copy after a 5
second grace delay. -/
def completeRide (s : ServerState) (senderSid : String)
    (rideId driverId : String) (distance : Int) (now : Nat) : Out Unit :=
  match mapGet s.rides rideId with
  | none => ⟨s, [], (), []⟩
  | some mem =>
    let rides2 := mapSet s.rides rideId
      { mem with
        status := "completed"
        completedAt := some now
        distanceDone := some distance }
    let ev1 : Emit := ⟨.room (jsRoom mem.data.userId), .rideCompleted rideId distance⟩
    let step2 : List (String × DriverInfo) × List Emit :=
      match mapGet s.activeDriverSockets driverId with
      | some info =>
        (mapSet s.activeDriverSockets driverId
          { info with status := "Live", isOnline := true },
          [⟨.conn senderSid, .driverStatusUpdate driverId "Live"⟩])
      | none => (s.activeDriverSockets, [])
    { state := { s with rides := rides2, activeDriverSockets := step2.1 }
      events := ev1 :: step2.2
      reply := ()
      timers := [(5000, .deleteRide rideId)] }

/-! ## Concrete fixtures used by witnesses and counterexamples -/

/-- Empty server state with the durable sequence counter at 0. -/
def emptyState : ServerState := ⟨[], [], [], [], 0, 0, [], [], []⟩

def samplePickup : BookPlace := ⟨some "A Street", 12, 77⟩

def sampleDrop : BookPlace := ⟨some "B Street", 13, 78⟩

/-- A fully populated booking payload. -/
def sampleData : BookData :=
  ⟨some "U1", some "CUST01", some "Alice", some "999", some samplePickup,
    some sampleDrop, some "taxi", some 100, some "3 km", some "10 mins", some false⟩

def sampleMemRide : MemRide := ⟨sampleData, "RID000001", "pending", 0, 0, none, none, none⟩

def sampleDriverInfo : DriverInfo := ⟨"S1", "D1", some "Bob", 1, 2, "taxi", 0, "Live", true⟩

/-- A state with one in-memory working ride and one registered driver. -/
def busyState : ServerState :=
  ⟨[("RID000001", sampleMemRide)], [("D1", sampleDriverInfo)], [], [], 1, 1, [], [], []⟩

/-! ## C10: registerDriver rejects zero coordinates -/

/-- C10: a registerDriver request whose latitude or longitude equals 0,
or whose driverId is missing (or empty), is treated as invalid: the
handler returns early, the presence registry (indeed the whole state)
is unchanged, and no event — in particular no
driverRegistrationConfirmed — is sent, even though 0 is a
geographically valid coordinate. -/
theorem registerDriver_rejects_zero_coordinates (s : ServerState)
    (sid : String) (did dn : Option String) (lat lng : Option Int)
    (vt : Option String) (now : Nat)
    (h : jsFalsyStr did = true ∨ lat = some 0 ∨ lng = some 0) :
    registerDriver s sid did dn lat lng vt now = ⟨s, [], (), []⟩ := by
  unfold registerDriver
  rcases h with h | h | h
  · simp [h]
  · by_cases hd : jsFalsyStr did
    · simp [hd]
    · subst h
      simp [hd, jsFalsyNum]
  · by_cases hd : jsFalsyStr did
    · simp [hd]
    · subst h
      simp [hd, jsFalsyNum]

theorem registerDriver_rejects_zero_coordinates_witness :
    (jsFalsyStr (some "D1") = true ∨ (some (0 : Int)) = some 0 ∨
      (some (7 : Int)) = some 0) ∧
    registerDriver emptyState "S1" (some "D1") (some "Bob") (some 0) (some 7)
      none 0 = ⟨emptyState, [], (), []⟩ :=
  ⟨Or.inr (Or.inl rfl),
    registerDriver_rejects_zero_coordinates emptyState "S1" (some "D1")
      (some "Bob") (some 0) (some 7) none 0 (Or.inr (Or.inl rfl))⟩

/-! ## C8: driverLocationUpdate -/

/-- C8 (amended): updateLocation updates the presence entry's location,
timestamp and status in place when the driver is known to the presence
registry, and an unknown driver is not implicitly registered (the
registry is unchanged); however, even for an unknown driver the handler
still broadcasts a driverLiveLocationUpdate event to all clients and
appends a durable DriverLocation record (with driver name Unknown), so
the unknown-driver case is not free of broadcasts or durable writes. -/
theorem driverLocationUpdate_spec (s : ServerState) (did : String)
    (lat lng : Int) (st : Option String) (now : Nat) :
    (∀ info : DriverInfo, mapGet s.activeDriverSockets did = some info →
      mapGet (driverLocationUpdate s did lat lng st now).state.activeDriverSockets
          did =
        some { info with latitude := lat, longitude := lng, lastUpdate := now
                         , status := jsOrOpt st "Live", isOnline := true }) ∧
    (mapGet s.activeDriverSockets did = none →
      (driverLocationUpdate s did lat lng st now).state.activeDriverSockets =
          s.activeDriverSockets ∧
        (driverLocationUpdate s did lat lng st now).events =
          [⟨.all, .driverLiveLocationUpdate did lat lng (jsOrOpt st "Live")
            "taxi" now⟩] ∧
        (driverLocationUpdate s did lat lng st now).state.dbLocations =
          ⟨did, some "Unknown", lat, lng, "taxi", jsOrOpt st "Live", now⟩ ::
            s.dbLocations) := by
  constructor
  · intro info hinfo
    unfold driverLocationUpdate
    simp [hinfo, mapGet_set_self]
  · intro hnone
    unfold driverLocationUpdate
    simp [hnone, jsOrOpt]

/-- C8 counterexample: with an unregistered driver the handler is not a
no-op — the broadcast still goes out and a durable location record is
still written. -/
theorem driverLocationUpdate_unknown_still_broadcasts :
    mapGet emptyState.activeDriverSockets "D9" = none ∧
    (driverLocationUpdate emptyState "D9" 1 2 none 0).events ≠ [] ∧
    (driverLocationUpdate emptyState "D9" 1 2 none 0).state.dbLocations ≠
      emptyState.dbLocations :=
  ⟨rfl, by decide, by decide⟩

theorem driverLocationUpdate_spec_witness :
    (mapGet busyState.activeDriverSockets "D1" = some sampleDriverInfo ∧
      mapGet (driverLocationUpdate busyState "D1" 5 6 (some "OnRide") 9).state.activeDriverSockets
          "D1" =
        some { sampleDriverInfo with latitude := 5, longitude := 6, lastUpdate := 9
                                     , status := jsOrOpt (some "OnRide") "Live", isOnline := true }) ∧
    (mapGet emptyState.activeDriverSockets "D9" = none ∧
      ((driverLocationUpdate emptyState "D9" 1 2 none 0).state.activeDriverSockets =
          emptyState.activeDriverSockets ∧
        (driverLocationUpdate emptyState "D9" 1 2 none 0).events =
          [⟨.all, .driverLiveLocationUpdate "D9" 1 2 (jsOrOpt none "Live")
            "taxi" 0⟩] ∧
        (driverLocationUpdate emptyState "D9" 1 2 none 0).state.dbLocations =
          ⟨"D9", some "Unknown", 1, 2, "taxi", jsOrOpt none "Live", 0⟩ ::
            emptyState.dbLocations)) :=
  ⟨⟨by decide,
      (driverLocationUpdate_spec busyState "D1" 5 6 (some "OnRide") 9).1
        sampleDriverInfo (by decide)⟩,
    ⟨rfl, (driverLocationUpdate_spec emptyState "D9" 1 2 none 0).2 rfl⟩⟩

/-! ## C6: rejectRide -/

/-- C6: for every rejectRide call on a ride present in the in-memory
working set, with the rejecting driver present in the presence
registry, the working copy's status becomes rejected, the driver's
presence status is restored to Live (and the rejecting connection is
notified of its own status change), and the durable stores — in
particular the durable ride records — are neither modified nor
removed. -/
theorem rejectRide_spec (s : ServerState) (sid rid did : String) (now : Nat)
    (mem : MemRide) (info : DriverInfo)
    (hmem : mapGet s.rides rid = some mem)
    (hinfo : mapGet s.activeDriverSockets did = some info) :
    mapGet (rejectRide s sid rid did now).state.rides rid =
      some { mem with status := "rejected", rejectedAt := some now } ∧
    mapGet (rejectRide s sid rid did now).state.activeDriverSockets did =
      some { info with status := "Live", isOnline := true } ∧
    (rejectRide s sid rid did now).events =
      [⟨.conn sid, .driverStatusUpdate did "Live"⟩] ∧
    (rejectRide s sid rid did now).state.dbRides = s.dbRides ∧
    (rejectRide s sid rid did now).state.dbLocations = s.dbLocations ∧
    (rejectRide s sid rid did now).state.dbSeq = s.dbSeq := by
  unfold rejectRide
  simp [hmem, hinfo, mapGet_set_self]

theorem rejectRide_spec_witness :
    mapGet busyState.rides "RID000001" = some sampleMemRide ∧
    mapGet busyState.activeDriverSockets "D1" = some sampleDriverInfo ∧
    (mapGet (rejectRide busyState "S1" "RID000001" "D1" 42).state.rides "RID000001" =
        some { sampleMemRide with status := "rejected", rejectedAt := some 42 } ∧
      mapGet (rejectRide busyState "S1" "RID000001" "D1" 42).state.activeDriverSockets
          "D1" = some { sampleDriverInfo with status := "Live", isOnline := true } ∧
      (rejectRide busyState "S1" "RID000001" "D1" 42).events =
        [⟨.conn "S1", .driverStatusUpdate "D1" "Live"⟩] ∧
      (rejectRide busyState "S1" "RID000001" "D1" 42).state.dbRides =
        busyState.dbRides ∧
      (rejectRide busyState "S1" "RID000001" "D1" 42).state.dbLocations =
        busyState.dbLocations ∧
      (rejectRide busyState "S1" "RID000001" "D1" 42).state.dbSeq =
        busyState.dbSeq) :=
  ⟨by decide, by decide,
    rejectRide_spec busyState "S1" "RID000001" "D1" 42 sampleMemRide
      sampleDriverInfo (by decide) (by decide)⟩

/-! ## C7: completeRide -/

/-- C7: for every completeRide call on a ride present in the in-memory
working set (whose booking payload carries the original rider's id),
with the driver present in the presence registry, the working copy's
status becomes completed, the original rider's room is notified with a
rideCompleted event carrying the rideId and distance, the driver's
presence status is restored to Live, and a 5000 ms timer is scheduled
whose task removes the in-memory working copy. -/
theorem completeRide_spec (s : ServerState) (sid rid did : String)
    (dist : Int) (now : Nat) (mem : MemRide) (info : DriverInfo) (u : String)
    (hmem : mapGet s.rides rid = some mem)
    (hu : mem.data.userId = some u)
    (hinfo : mapGet s.activeDriverSockets did = some info) :
    mapGet (completeRide s sid rid did dist now).state.rides rid =
      some { mem with status := "completed", completedAt := some now
                      , distanceDone := some dist } ∧
    (⟨.room u, .rideCompleted rid dist⟩ : Emit) ∈
      (completeRide s sid rid did dist now).events ∧
    mapGet (completeRide s sid rid did dist now).state.activeDriverSockets did =
      some { info with status := "Live", isOnline := true } ∧
    (completeRide s sid rid did dist now).timers = [(5000, .deleteRide rid)] ∧
    mapGet (applyTimer (completeRide s sid rid did dist now).state
        (.deleteRide rid)).1.rides rid = none := by
  unfold completeRide
  simp [hmem, hinfo, hu, jsRoom, mapGet_set_self, applyTimer, mapGet_del_self]

theorem completeRide_spec_witness :
    mapGet busyState.rides "RID000001" = some sampleMemRide ∧
    sampleMemRide.data.userId = some "U1" ∧
    mapGet busyState.activeDriverSockets "D1" = some sampleDriverInfo ∧
    (mapGet (completeRide busyState "S1" "RID000001" "D1" 3 50).state.rides
        "RID000001" =
      some { sampleMemRide with status := "completed", completedAt := some 50
                                , distanceDone := some 3 } ∧
    (⟨.room "U1", .rideCompleted "RID000001" 3⟩ : Emit) ∈
      (completeRide busyState "S1" "RID000001" "D1" 3 50).events ∧
    mapGet (completeRide busyState "S1" "RID000001" "D1" 3 50).state.activeDriverSockets
        "D1" = some { sampleDriverInfo with status := "Live", isOnline := true } ∧
    (completeRide busyState "S1" "RID000001" "D1" 3 50).timers =
      [(5000, .deleteRide "RID000001")] ∧
    mapGet (applyTimer (completeRide busyState "S1" "RID000001" "D1" 3 50).state
        (.deleteRide "RID000001")).1.rides "RID000001" = none) :=
  ⟨by decide, by decide, by decide,
    completeRide_spec busyState "S1" "RID000001" "D1" 3 50 sampleMemRide
      sampleDriverInfo "U1" (by decide) (by decide) (by decide)⟩

/-! ## C5: bookRide required-field validation -/

/-- Whether `needle` matches the front of `hay`. -/
def leadsWith : List Char → List Char → Bool
  | [], _ => true
  | _ :: _, [] => false
  | a :: as, b :: bs => a == b && leadsWith as bs

/-- Whether `needle` occurs as a contiguous substring of `hay`. -/
def hasSub : List Char → List Char → Bool
  | [], needle => needle.isEmpty
  | h :: t, needle => leadsWith needle (h :: t) || hasSub t needle

/-- C5 (amended): for every bookRide request missing one of the
required fields userId, customerId, userName, pickup, drop, the call
fails with the generic validation message Missing required fields
(which does not name the individual missing fields) and no durable ride
record — and no in-memory working copy — is created, and nothing is
broadcast. -/
theorem bookRide_missing_fields (s : ServerState) (d : BookData) (now r : Nat)
    (hv : bookValid d = false)
    (hnp : listHas s.processingRides (nextRaidId s) = false) :
    (bookRide s d now r).reply.success = false ∧
    (bookRide s d now r).reply.message = "Missing required fields" ∧
    (bookRide s d now r).state.dbRides = s.dbRides ∧
    (bookRide s d now r).state.rides = s.rides ∧
    (bookRide s d now r).events = [] := by
  unfold bookRide bookRideWithId
  unfold nextRaidId at hnp
  simp [hnp, hv]

/-- The sample booking payload with the required pickup field
removed. -/
def missingPickupData : BookData := { sampleData with pickup := none }

/-- C5 counterexample: booking with a missing pickup fails and creates
no durable record, but the validation error is the fixed string
"Missing required fields": it does not list the missing field — the
substring "pickup" does not occur in the message — refuting the claim
that the error lists the missing fields. -/
theorem bookRide_error_lists_no_fields :
    (bookRide emptyState missingPickupData 0 0).reply.success = false ∧
    (bookRide emptyState missingPickupData 0 0).reply.message =
      "Missing required fields" ∧
    hasSub ((bookRide emptyState missingPickupData 0 0).reply.message).data
      "pickup".data = false ∧
    (bookRide emptyState missingPickupData 0 0).state.dbRides =
      emptyState.dbRides :=
  ⟨by decide, by decide, by decide, by decide⟩

theorem bookRide_missing_fields_witness :
    bookValid missingPickupData = false ∧
    listHas emptyState.processingRides (nextRaidId emptyState) = false ∧
    ((bookRide emptyState missingPickupData 0 0).reply.success = false ∧
      (bookRide emptyState missingPickupData 0 0).reply.message =
        "Missing required fields" ∧
      (bookRide emptyState missingPickupData 0 0).state.dbRides =
        emptyState.dbRides ∧
      (bookRide emptyState missingPickupData 0 0).state.rides =
        emptyState.rides ∧
      (bookRide emptyState missingPickupData 0 0).events = []) :=
  ⟨by decide, by decide,
    bookRide_missing_fields emptyState missingPickupData 0 0 (by decide) (by decide)⟩

/-! ## C2: bookRide duplicate-identifier idempotency -/

/-- C2: if a first bookRide invocation (with a valid payload, a fresh
identifier and no concurrent processing guard) creates a durable
record, then a second invocation whose generated identifier is the same
(the booking body run with that identifier, as happens after a counter
wraparound or a degraded-path collision) creates no second durable
record and returns success carrying the first record's rideId and
otp. -/
theorem bookRide_duplicate_id (s : ServerState) (d1 d2 : BookData)
    (now1 now2 r1 r2 : Nat)
    (hv1 : bookValid d1 = true) (hv2 : bookValid d2 = true)
    (hfresh : s.dbRides.find? (fun x => x.RAID_ID == nextRaidId s) = none)
    (hnp : listHas s.processingRides (nextRaidId s) = false) :
    (bookRide s d1 now1 r1).reply.success = true ∧
    (bookRide s d1 now1 r1).reply.rideId = some (nextRaidId s) ∧
    (bookRide s d1 now1 r1).reply.otp = some (bookOtp d1.customerId r1) ∧
    (bookRideWithId (bookRide s d1 now1 r1).state (nextRaidId s)
        (bookOtp d2.customerId r2) d2 now2).state.dbRides =
      (bookRide s d1 now1 r1).state.dbRides ∧
    (bookRideWithId (bookRide s d1 now1 r1).state (nextRaidId s)
        (bookOtp d2.customerId r2) d2 now2).reply =
      ⟨true, some (nextRaidId s), some s.nextOid,
        some (bookOtp d1.customerId r1), "Ride already exists"⟩ := by
  unfold bookRide bookRideWithId
  unfold nextRaidId at hfresh hnp ⊢
  simp only [hnp, Bool.false_eq_true, if_false, hv1, Bool.not_true,
    Bool.false_eq_true, if_false, hfresh]
  simp [listHas_setDel, hv2, List.find?_cons]

theorem bookRide_duplicate_id_witness :
    bookValid sampleData = true ∧
    emptyState.dbRides.find? (fun x => x.RAID_ID == nextRaidId emptyState) = none ∧
    listHas emptyState.processingRides (nextRaidId emptyState) = false ∧
    ((bookRide emptyState sampleData 0 2).reply.success = true ∧
      (bookRide emptyState sampleData 0 2).reply.rideId =
        some (nextRaidId emptyState) ∧
      (bookRide emptyState sampleData 0 2).reply.otp =
        some (bookOtp sampleData.customerId 2) ∧
      (bookRideWithId (bookRide emptyState sampleData 0 2).state
          (nextRaidId emptyState) (bookOtp sampleData.customerId 3) sampleData
          1).state.dbRides =
        (bookRide emptyState sampleData 0 2).state.dbRides ∧
      (bookRideWithId (bookRide emptyState sampleData 0 2).state
          (nextRaidId emptyState) (bookOtp sampleData.customerId 3) sampleData
          1).reply =
        ⟨true, some (nextRaidId emptyState), some emptyState.nextOid,
          some (bookOtp sampleData.customerId 2), "Ride already exists"⟩) :=
  ⟨by decide, by decide, by decide,
    bookRide_duplicate_id emptyState sampleData sampleData 0 1 2 3
      (by decide) (by decide) (by decide) (by decide)⟩

/-! ## C1: acceptRide exclusivity -/

/-- The payload carried by a successful acceptance reply. -/
def acceptedPayload : AcceptReply → Option DriverData
  | .failure _ => none
  | .accepted p => some p

theorem find?_setRide (l : List RideDoc) (rid : String) (r r2 : RideDoc)
    (h : l.find? (fun x => x.RAID_ID == rid) = some r) (h2 : r2.RAID_ID = rid) :
    (setRide l rid r2).find? (fun x => x.RAID_ID == rid) = some r2 := by
  induction l with
  | nil => simp at h
  | cons a rest ih =>
    by_cases ha : a.RAID_ID = rid
    · simp [setRide, ha, List.find?_cons, h2]
    · have h3 : rest.find? (fun x => x.RAID_ID == rid) = some r := by
        rw [List.find?_cons_of_neg] at h
        · exact h
        · simp [ha]
      simp [setRide, ha, List.find?_cons, ih h3]

/-- The already-accepted branch of `acceptRide`
(src/socket.js:652-668): failure result, broadcast to the other
drivers, and no change to any state. -/
theorem acceptRide_already (s : ServerState) (sid rid did dn : String)
    (now rnd : Nat) (r : RideDoc)
    (hfind : s.dbRides.find? (fun x => x.RAID_ID == rid) = some r)
    (hacc : r.status = "accepted") :
    acceptRide s sid rid did dn now rnd =
      ⟨s, [⟨.others sid, .rideAlreadyAccepted rid alreadyAcceptedMsg⟩],
        .failure alreadyAcceptedMsg, []⟩ := by
  unfold acceptRide
  simp [hfind, hacc]

/-- C1: any acceptRide call on a ride record whose durable status is
already accepted fails with the already-accepted message, broadcasts an
already-accepted notice to the other drivers, and leaves the whole
state — in particular the record's driver binding — unchanged; and for
two successive acceptance attempts on the same pending ride by
different drivers, the first succeeds with status accepted and the
second receives the already-accepted failure while leaving the state
produced by the first attempt untouched. -/
theorem acceptRide_exclusive (s : ServerState) (rid : String) (r : RideDoc)
    (hfind : s.dbRides.find? (fun x => x.RAID_ID == rid) = some r) :
    (∀ sid did dn : String, ∀ now rnd : Nat, r.status = "accepted" →
      acceptRide s sid rid did dn now rnd =
        ⟨s, [⟨.others sid, .rideAlreadyAccepted rid alreadyAcceptedMsg⟩],
          .failure alreadyAcceptedMsg, []⟩) ∧
    (∀ sid1 did1 dn1 sid2 did2 dn2 : String, ∀ now1 rnd1 now2 rnd2 : Nat,
      r.status = "pending" → did1 ≠ did2 →
      ∃ payload : DriverData,
        acceptedPayload (acceptRide s sid1 rid did1 dn1 now1 rnd1).reply =
          some payload ∧
        payload.status = "accepted" ∧ payload.driverId = did1 ∧
        acceptRide (acceptRide s sid1 rid did1 dn1 now1 rnd1).state
            sid2 rid did2 dn2 now2 rnd2 =
          ⟨(acceptRide s sid1 rid did1 dn1 now1 rnd1).state,
            [⟨.others sid2, .rideAlreadyAccepted rid alreadyAcceptedMsg⟩],
            .failure alreadyAcceptedMsg, []⟩) := by
  have hrid : r.RAID_ID = rid := by
    have h1 := List.find?_some hfind
    simpa using h1
  constructor
  · intro sid did dn now rnd hacc
    exact acceptRide_already s sid rid did dn now rnd r hfind hacc
  · intro sid1 did1 dn1 sid2 did2 dn2 now1 rnd1 now2 rnd2 hpend hne
    have hnacc : ¬ r.status = "accepted" := by
      rw [hpend]
      decide
    have hstate1 : (acceptRide s sid1 rid did1 dn1 now1 rnd1).state.dbRides =
        setRide s.dbRides rid (acceptedRideDoc r did1 dn1 rnd1
          (s.dbDrivers.find? (fun x => x.driverId == did1))) := by
      unfold acceptRide
      simp [hfind, hnacc]
    have hreply1 : (acceptRide s sid1 rid did1 dn1 now1 rnd1).reply =
        .accepted (mkDriverData (acceptedRideDoc r did1 dn1 rnd1
            (s.dbDrivers.find? (fun x => x.driverId == did1))) did1 dn1
          (s.dbDrivers.find? (fun x => x.driverId == did1)) now1) := by
      unfold acceptRide
      simp [hfind, hnacc]
    have hfind2 : (acceptRide s sid1 rid did1 dn1 now1 rnd1).state.dbRides.find?
        (fun x => x.RAID_ID == rid) = some (acceptedRideDoc r did1 dn1 rnd1
          (s.dbDrivers.find? (fun x => x.driverId == did1))) := by
      rw [hstate1]
      exact find?_setRide s.dbRides rid r _ hfind (by simp [acceptedRideDoc, hrid])
    refine ⟨mkDriverData (acceptedRideDoc r did1 dn1 rnd1
        (s.dbDrivers.find? (fun x => x.driverId == did1))) did1 dn1
      (s.dbDrivers.find? (fun x => x.driverId == did1)) now1, ?_, ?_, ?_, ?_⟩
    · rw [hreply1]
      rfl
    · simp [mkDriverData, acceptedRideDoc]
    · simp [mkDriverData]
    · exact acceptRide_already _ sid2 rid did2 dn2 now2 rnd2 _ hfind2
        (by simp [acceptedRideDoc])

/-- A durable pending ride record as `bookRide` would create it from
`sampleData`. -/
def pendingDoc : RideDoc :=
  { oid := 0
    user := "U1"
    customerId := "CUST01"
    name := "Alice"
    RAID_ID := "RID000001"
    pickupLocation := "A Street"
    dropoffLocation := "B Street"
    pickupCoordinates := (12, 77)
    dropoffCoordinates := (13, 78)
    fare := 100
    rideType := some "taxi"
    otp := "ST01"
    distance := "3 km"
    travelTime := "10 mins"
    isReturnTrip := false
    status := "pending"
    pickup := ⟨"A Street", 12, 77⟩
    drop := ⟨"B Street", 13, 78⟩
    price := 100
    driverId := none
    driverName := none
    driverMobile := none }

/-- The same record after a driver has accepted it. -/
def acceptedDoc : RideDoc :=
  { pendingDoc with
    status := "accepted"
    driverId := some "D1"
    driverName := some "Bob"
    driverMobile := some "12345" }

/-- A state whose durable store holds one pending ride. -/
def dbPendingState : ServerState := ⟨[], [], [], [pendingDoc], 1, 1, [], [], []⟩

/-- A state whose durable store holds one already-accepted ride. -/
def dbAcceptedState : ServerState := ⟨[], [], [], [acceptedDoc], 1, 1, [], [], []⟩

theorem acceptRide_exclusive_witness :
    (dbAcceptedState.dbRides.find? (fun x => x.RAID_ID == "RID000001") =
      some acceptedDoc) ∧
    (dbPendingState.dbRides.find? (fun x => x.RAID_ID == "RID000001") =
      some pendingDoc) ∧
    acceptedDoc.status = "accepted" ∧
    pendingDoc.status = "pending" ∧ ("D1" : String) ≠ "D2" ∧
    acceptRide dbAcceptedState "S2" "RID000001" "D2" "Carl" 7 8 =
      ⟨dbAcceptedState,
        [⟨.others "S2", .rideAlreadyAccepted "RID000001" alreadyAcceptedMsg⟩],
        .failure alreadyAcceptedMsg, []⟩ ∧
    (∃ payload : DriverData,
      acceptedPayload
          (acceptRide dbPendingState "S1" "RID000001" "D1" "Bob" 1 2).reply =
        some payload ∧
      payload.status = "accepted" ∧ payload.driverId = "D1" ∧
      acceptRide (acceptRide dbPendingState "S1" "RID000001" "D1" "Bob" 1 2).state
          "S2" "RID000001" "D2" "Carl" 3 4 =
        ⟨(acceptRide dbPendingState "S1" "RID000001" "D1" "Bob" 1 2).state,
          [⟨.others "S2", .rideAlreadyAccepted "RID000001" alreadyAcceptedMsg⟩],
          .failure alreadyAcceptedMsg, []⟩) :=
  ⟨by decide, by decide, rfl, rfl, by decide,
    (acceptRide_exclusive dbAcceptedState "RID000001" acceptedDoc (by decide)).1
      "S2" "D2" "Carl" 7 8 rfl,
    (acceptRide_exclusive dbPendingState "RID000001" pendingDoc (by decide)).2
      "S1" "D1" "Bob" "S2" "D2" "Carl" 1 2 3 4 rfl (by decide)⟩

/-! ## C9: global acceptance broadcast -/

/-- C9: on every successful acceptRide, the acceptance payload —
including the ride's OTP, the driver's mobile number and the
pickup/drop details — is additionally emitted to every connected client
as a global rideAcceptedGlobal event, not only to the rider's room and
the accepting driver. -/
theorem acceptRide_global_broadcast (s : ServerState) (sid rid did dn : String)
    (now rnd : Nat) (r : RideDoc)
    (hfind : s.dbRides.find? (fun x => x.RAID_ID == rid) = some r)
    (hnacc : r.status ≠ "accepted") :
    ∃ payload : DriverData,
      acceptedPayload (acceptRide s sid rid did dn now rnd).reply =
        some payload ∧
      (⟨.all, .rideAcceptedGlobal payload r.user⟩ : Emit) ∈
        (acceptRide s sid rid did dn now rnd).events ∧
      payload.otp = acceptOtp r rnd ∧
      payload.driverMobile =
        acceptMobile (s.dbDrivers.find? (fun x => x.driverId == did)) ∧
      payload.pickup = r.pickup ∧ payload.drop = r.drop := by
  have hreply : (acceptRide s sid rid did dn now rnd).reply =
      .accepted (mkDriverData (acceptedRideDoc r did dn rnd
          (s.dbDrivers.find? (fun x => x.driverId == did))) did dn
        (s.dbDrivers.find? (fun x => x.driverId == did)) now) := by
    unfold acceptRide
    simp [hfind, hnacc]
  have hevents : (acceptRide s sid rid did dn now rnd).events =
      [⟨.room (acceptedRideDoc r did dn rnd
          (s.dbDrivers.find? (fun x => x.driverId == did))).user,
        .rideAccepted (mkDriverData (acceptedRideDoc r did dn rnd
            (s.dbDrivers.find? (fun x => x.driverId == did))) did dn
          (s.dbDrivers.find? (fun x => x.driverId == did)) now)⟩,
       ⟨.roomSockets (acceptedRideDoc r did dn rnd
          (s.dbDrivers.find? (fun x => x.driverId == did))).user,
        .rideAccepted (mkDriverData (acceptedRideDoc r did dn rnd
            (s.dbDrivers.find? (fun x => x.driverId == did))) did dn
          (s.dbDrivers.find? (fun x => x.driverId == did)) now)⟩,
       ⟨.all, .rideAcceptedGlobal (mkDriverData (acceptedRideDoc r did dn rnd
            (s.dbDrivers.find? (fun x => x.driverId == did))) did dn
          (s.dbDrivers.find? (fun x => x.driverId == did)) now)
        (acceptedRideDoc r did dn rnd
          (s.dbDrivers.find? (fun x => x.driverId == did))).user⟩,
       userDataEmitOf s.conns did (mkUserData (acceptedRideDoc r did dn rnd
          (s.dbDrivers.find? (fun x => x.driverId == did))) now),
       ⟨.others sid, .rideAlreadyAccepted rid alreadyAcceptedMsg⟩] := by
    unfold acceptRide
    simp [hfind, hnacc]
  refine ⟨mkDriverData (acceptedRideDoc r did dn rnd
      (s.dbDrivers.find? (fun x => x.driverId == did))) did dn
    (s.dbDrivers.find? (fun x => x.driverId == did)) now,
    by rw [hreply]; rfl, ?_, ?_, ?_, ?_, ?_⟩
  · rw [hevents]
    have huser : (acceptedRideDoc r did dn rnd
        (s.dbDrivers.find? (fun x => x.driverId == did))).user = r.user := rfl
    rw [← huser]
    simp
  · simp [mkDriverData, acceptedRideDoc]
  · simp [mkDriverData]
  · simp [mkDriverData, acceptedRideDoc]
  · simp [mkDriverData, acceptedRideDoc]

theorem acceptRide_global_broadcast_witness :
    (dbPendingState.dbRides.find? (fun x => x.RAID_ID == "RID000001") =
      some pendingDoc) ∧
    pendingDoc.status ≠ "accepted" ∧
    (∃ payload : DriverData,
      acceptedPayload
          (acceptRide dbPendingState "S1" "RID000001" "D1" "Bob" 1 2).reply =
        some payload ∧
      (⟨.all, .rideAcceptedGlobal payload pendingDoc.user⟩ : Emit) ∈
        (acceptRide dbPendingState "S1" "RID000001" "D1" "Bob" 1 2).events ∧
      payload.otp = acceptOtp pendingDoc 2 ∧
      payload.driverMobile =
        acceptMobile (dbPendingState.dbDrivers.find?
          (fun x => x.driverId == "D1")) ∧
      payload.pickup = pendingDoc.pickup ∧ payload.drop = pendingDoc.drop) :=
  ⟨by decide, by decide,
    acceptRide_global_broadcast dbPendingState "S1" "RID000001" "D1" "Bob" 1 2
      pendingDoc (by decide) (by decide)⟩
